import Mathlib

/-!
Shallow embedding of the drgdfu DFU agent core: the protocol data model, the
local-image planner (the `File` arm of `FirmwareUpdater::report`,
src/firmware.rs:38-88), the cloud long-poll retry loop (the `Cloud` arm,
src/firmware.rs:90-133), the update driver (`FirmwareUpdater::check` and
`FirmwareUpdater::run`, src/firmware.rs:137-210), and the device simulator's
flash write (src/simulator.rs:38-47).

Machine integers are modelled as `Nat`; the one place the Rust code does `u32`
arithmetic on a value it stores (the next status offset) carries an explicit
`% 2 ^ 32`. Rust panics (slice out of range, arithmetic underflow) are modelled
as an explicit `panicked` outcome.
-/

/-- Pending-update record carried inside a `Status`
(`drogue_ajour_protocol`, spec section 3): `version` is the in-flight target
version, `offset` the number of bytes the device has accepted so far. -/
structure UpdateStatus where
  version : String
  offset : Nat
  deriving DecidableEq

/-- Device-to-source report (`drogue_ajour_protocol::StatusRef`, spec section 3). -/
structure Status where
  version : String
  mtu : Option Nat
  update : Option UpdateStatus
  correlationId : Option Nat
  deriving DecidableEq

/-- Modelled from the spec: the protocol-crate constructor
`StatusRef::first(version, mtu, correlation_id)` as called at
src/firmware.rs:143. It receives no update data, so the built status carries
`update = none`. -/
def StatusRef.first (version : String) (mtu : Option Nat) (cid : Option Nat) : Status :=
  ⟨version, mtu, none, cid⟩

/-- Modelled from the spec: the protocol-crate constructor
`StatusRef::update(version, mtu, offset, next_version, correlation_id)` as
called at src/firmware.rs:165-171. -/
def StatusRef.update (version : String) (mtu : Option Nat) (offset : Nat)
    (next : String) (cid : Option Nat) : Status :=
  ⟨version, mtu, some ⟨next, offset⟩, cid⟩

/-- Source-to-device command (`drogue_ajour_protocol::Command`, spec section 3). -/
inductive Command where
  | sync (version : String) (poll : Option Nat) (correlationId : Option Nat)
  | write (version : String) (offset : Nat) (data : List Nat) (correlationId : Option Nat)
  | swap (version : String) (checksum : List Nat) (correlationId : Option Nat)
  deriving DecidableEq

/-- Modelled from the spec: protocol-crate constructor `Command::new_sync`. -/
def Command.new_sync (version : String) (poll : Option Nat) (cid : Option Nat) : Command :=
  .sync version poll cid

/-- Modelled from the spec: protocol-crate constructor `Command::new_write`. -/
def Command.new_write (version : String) (offset : Nat) (dat : List Nat)
    (cid : Option Nat) : Command :=
  .write version offset dat cid

/-- Modelled from the spec: protocol-crate constructor `Command::new_swap`. -/
def Command.new_swap (version : String) (checksum : List Nat) (cid : Option Nat) : Command :=
  .swap version checksum cid

/-- Firmware metadata for the `File` source (src/firmware.rs:9-14). The `file`
path plays no role in the planner logic and is omitted. -/
structure FirmwareFileMeta where
  version : String
  size : Nat
  deriving DecidableEq

/-- Outcome of one `FirmwareUpdater::report` call: a command, an error returned
as a value (`Err` in Rust), or a Rust panic (out-of-range slice or arithmetic
underflow). -/
inductive ReportResult where
  | ok (cmd : Command)
  | err (msg : String)
  | panicked
  deriving DecidableEq

/-- The local-image planner: the `Self::File` arm of `FirmwareUpdater::report`
(src/firmware.rs:38-88), with `dat` the loaded image bytes (`data`).
The guard `dat.length < u.offset` renders the partiality of the Rust
`data.len() - update.offset as usize` (src/firmware.rs:57): the subtraction
underflows in debug builds and the subsequent slice
`&data[update.offset .. update.offset + to_copy]` is out of range in release
builds, so the call panics in either mode. -/
def reportFile (meta : FirmwareFileMeta) (dat : List Nat) (s : Status) : ReportResult :=
  if meta.version = s.version then
    .ok (Command.new_sync s.version none s.correlationId)
  else
    match s.update with
    | some u =>
      if u.version = meta.version then
        if u.offset = meta.size then
          .ok (Command.new_swap meta.version (List.replicate 32 0) s.correlationId)
        else if dat.length < u.offset then
          .panicked
        else
          let mtu := s.mtu.getD 4096
          let toCopy := min mtu (dat.length - u.offset)
          .ok (Command.new_write meta.version u.offset
            ((dat.drop u.offset).take toCopy) s.correlationId)
      else
        let mtu := s.mtu.getD 4096
        let toCopy := min mtu dat.length
        .ok (Command.new_write meta.version 0 (dat.take toCopy) s.correlationId)
    | none =>
      let mtu := s.mtu.getD 4096
      let toCopy := min mtu dat.length
      .ok (Command.new_write meta.version 0 (dat.take toCopy) s.correlationId)

/-- One HTTP exchange as observed by the `Self::Cloud` arm of
`FirmwareUpdater::report` (src/firmware.rs:96-133): either the POST itself
fails, or a response arrives with a success flag and a body that may or may not
decode to a `Command` (`body = none` covers both an unreadable and an
undecodable body; the Rust code treats them alike and falls through to the
backoff sleep). -/
inductive CloudResp where
  | sendErr (msg : String)
  | resp (success : Bool) (body : Option Command)
  deriving DecidableEq

/-- The `Self::Cloud` retry loop of `FirmwareUpdater::report`
(src/firmware.rs:96-133), driven by the sequence `rs` of network outcomes.
The second component counts the executed backoff sleeps
(`sleep(Duration::from_secs(1))`, src/firmware.rs:129). The result is `none`
when the loop is still running after consuming every listed outcome. -/
def reportCloud : List CloudResp → Nat → Option (ReportResult × Nat)
  | [], _ => none
  | r :: rest, sleeps =>
    match r with
    | .sendErr e => some (.err e, sleeps)
    | .resp false _ => some (.err "Error reporting status to cloud", sleeps)
    | .resp true (some cmd) => some (.ok cmd, sleeps)
    | .resp true none => reportCloud rest (sleeps + 1)

deriving instance DecidableEq for Except

/-- Abstract device state used to drive `FirmwareUpdater::check`/`run`.
`pending` is the on-device pending-update record that the `status()`
implementations at src/serial.rs:52-54 and src/simulator.rs:34-36 would report;
the `FirmwareDevice` trait actually used by the driver (src/firmware.rs:214-222)
has no such operation. In this model `version`, `start`, `write` and `synced`
always succeed; `swapResult` is the outcome of `swap` (src/serial.rs:65-80 maps
post-commit port loss to an error), and `newVersion` is the version the device
reports after a successful swap. -/
structure DeviceModel where
  version : String
  pending : Option UpdateStatus
  swapResult : Except String Unit
  newVersion : String
  deriving DecidableEq

/-- Observable interaction record of one driver session: the statuses handed to
`report`, the commands received back, the `device.write` calls, and how often
`device.start` and `device.synced` ran. All lists are chronological. -/
structure Trace where
  statuses : List Status
  commands : List Command
  writes : List (Nat × List Nat)
  starts : Nat
  syncedCalls : Nat
  deriving DecidableEq

/-- Result of one `FirmwareUpdater::check` session: `ok b` is Rust's `Ok(b)`,
`err` a returned error, `panicked` an unwinding panic inside `report`. -/
inductive SessionResult where
  | ok (updated : Bool)
  | err (msg : String)
  | panicked
  deriving DecidableEq

/-- The loop of `FirmwareUpdater::check` (src/firmware.rs:147-192) over the
`File` source, fuel-bounded (`none` = fuel exhausted before the session ended).
`current` is check's `current_version` argument, fixed for the whole session.
After a `Write` the driver stores `offset + data.len() as u32` in the next
status (src/firmware.rs:165-171), hence the `% 2 ^ 32`. -/
def checkLoop (meta : FirmwareFileMeta) (dat : List Nat) (dev : DeviceModel)
    (mtu : Nat) (current : String) : Nat → Status → Option (SessionResult × Trace)
  | 0, _ => none
  | fuel + 1, s =>
    match reportFile meta dat s with
    | .err e => some (.err e, ⟨[s], [], [], 0, 0⟩)
    | .panicked => some (.panicked, ⟨[s], [], [], 0, 0⟩)
    | .ok cmd =>
      match cmd with
      | .write v off d _ =>
        match checkLoop meta dat dev mtu current fuel
            (StatusRef.update current (some mtu) ((off + d.length) % 2 ^ 32) v none) with
        | none => none
        | some (r, t) =>
          some (r, ⟨s :: t.statuses, cmd :: t.commands, (off, d) :: t.writes,
            (if off = 0 then 1 else 0) + t.starts, t.syncedCalls⟩)
      | .sync _ _ _ => some (.ok true, ⟨[s], [cmd], [], 0, 1⟩)
      | .swap _ _ _ =>
        match dev.swapResult with
        | .ok _ => some (.ok false, ⟨[s], [cmd], [], 0, 0⟩)
        | .error e => some (.err e, ⟨[s], [cmd], [], 0, 0⟩)

/-- `FirmwareUpdater::check` (src/firmware.rs:137-193): build the initial status
with `StatusRef::first(current_version, Some(MTU), None)` (src/firmware.rs:143)
and run the command loop. -/
def check (meta : FirmwareFileMeta) (dat : List Nat) (dev : DeviceModel)
    (mtu : Nat) (current : String) (fuel : Nat) : Option (SessionResult × Trace) :=
  checkLoop meta dat dev mtu current fuel (StatusRef.first current (some mtu) none)

/-- Result of `FirmwareUpdater::run`: success, a surfaced error, or a panic. -/
inductive RunResult where
  | done
  | failed (msg : String)
  | panicked
  deriving DecidableEq

/-- Concatenation of two interaction traces. -/
def Trace.append (a b : Trace) : Trace :=
  ⟨a.statuses ++ b.statuses, a.commands ++ b.commands, a.writes ++ b.writes,
    a.starts + b.starts, a.syncedCalls + b.syncedCalls⟩

/-- `FirmwareUpdater::run` (src/firmware.rs:196-210): query the device version,
run `check`, stop on `Ok(true)`, loop again on `Ok(false)` (after a successful
swap the device model reports `newVersion`), and propagate errors (the `?` at
src/firmware.rs:204). Outer iterations are fuel-bounded. -/
def runLoop (meta : FirmwareFileMeta) (dat : List Nat) (mtu : Nat) (innerFuel : Nat) :
    Nat → DeviceModel → Option (RunResult × Trace)
  | 0, _ => none
  | g + 1, dev =>
    match check meta dat dev mtu dev.version innerFuel with
    | none => none
    | some (.ok true, t) => some (.done, t)
    | some (.ok false, t) =>
      match runLoop meta dat mtu innerFuel g { dev with version := dev.newVersion } with
      | none => none
      | some (r, t2) => some (r, t.append t2)
    | some (.err e, t) => some (.failed e, t)
    | some (.panicked, t) => some (.panicked, t)

/-- `ws` is a gap-free, overlap-free write sequence starting at offset `o`: each
write's offset is exactly where the previous one ended. -/
def contiguousFrom : Nat → List (Nat × List Nat) → Bool
  | _, [] => true
  | o, (off, d) :: rest => off == o && contiguousFrom (o + d.length) rest

/-- `FLASH_SIZE` (src/simulator.rs:6). -/
def FLASH_SIZE : Nat := 128

/-- `DeviceSimulator::write` (src/simulator.rs:38-47) as a function of the flash
contents: the write is rejected when `offset + data.len() >= self.flash.len()`,
leaving the flash unchanged; otherwise `flash[offset..offset + data.len()]` is
overwritten with `data`. -/
def DeviceSimulator.write (flash : List Nat) (offset : Nat) (dat : List Nat) :
    Except String Unit × List Nat :=
  if flash.length ≤ offset + dat.length then
    (.error "Writing outside flash limits", flash)
  else
    (.ok (), flash.take offset ++ dat ++ flash.drop (offset + dat.length))

/-- C4: if the status version equals the image version, the local-image planner
returns `Sync` carrying the status's version, no poll hint, and the echoed
correlation id — irrespective of any pending-update record in the status
(src/firmware.rs:39-44 tests the version before looking at `status.update`). -/
theorem reportFile_sync_of_version_eq (meta : FirmwareFileMeta) (dat : List Nat)
    (s : Status) (h : s.version = meta.version) :
    reportFile meta dat s = .ok (.sync s.version none s.correlationId) := by
  unfold reportFile
  rw [if_pos h.symm]
  rfl

/-- Witness for C4, at a status that does carry a pending-update record. -/
theorem reportFile_sync_of_version_eq_witness :
    reportFile ⟨"1.0", 100⟩ (List.replicate 100 7)
      ⟨"1.0", some 4096, some ⟨"2.0", 10⟩, some 5⟩ =
      .ok (.sync "1.0" none (some 5)) :=
  reportFile_sync_of_version_eq ⟨"1.0", 100⟩ (List.replicate 100 7)
    ⟨"1.0", some 4096, some ⟨"2.0", 10⟩, some 5⟩ rfl

/-- C5: a status whose pending-update record names the image version with offset
equal to the image size makes the planner return `Swap` with the image version
and a 32-byte all-zero checksum (src/firmware.rs:48-53). The hypothesis
`s.version ≠ u.version` is the spec's Status invariant (an in-progress update
targets a different version); it routes the call past the `Sync` branch. -/
theorem reportFile_swap_at_full_offset (meta : FirmwareFileMeta) (dat : List Nat)
    (s : Status) (u : UpdateStatus) (hu : s.update = some u)
    (hv : u.version = meta.version) (hne : s.version ≠ u.version)
    (hoff : u.offset = meta.size) :
    reportFile meta dat s =
      .ok (.swap meta.version (List.replicate 32 0) s.correlationId) := by
  have hms : meta.version ≠ s.version := fun h => hne (by rw [hv, h])
  unfold reportFile
  rw [if_neg hms, hu]
  simp [hv, hoff, Command.new_swap]

/-- Witness for C5. -/
theorem reportFile_swap_at_full_offset_witness :
    reportFile ⟨"2.0", 10⟩ (List.replicate 10 170)
      ⟨"1.0", some 4096, some ⟨"2.0", 10⟩, none⟩ =
      .ok (.swap "2.0" (List.replicate 32 0) none) :=
  reportFile_swap_at_full_offset ⟨"2.0", 10⟩ (List.replicate 10 170)
    ⟨"1.0", some 4096, some ⟨"2.0", 10⟩, none⟩ ⟨"2.0", 10⟩ rfl rfl (by decide) rfl

/-- C3 (amended): when the pending-update record names the image version but its
offset exceeds the image size (with `size` = byte count), `report` panics —
`data.len() - update.offset as usize` underflows and the slice is out of range
(src/firmware.rs:56-59) — instead of returning a typed Planner error. -/
theorem reportFile_offset_beyond_size_panics (meta : FirmwareFileMeta)
    (dat : List Nat) (s : Status) (u : UpdateStatus) (hlen : meta.size = dat.length)
    (hne : s.version ≠ meta.version) (hu : s.update = some u)
    (hv : u.version = meta.version) (hoff : meta.size < u.offset) :
    reportFile meta dat s = .panicked := by
  have hms : meta.version ≠ s.version := fun h => hne h.symm
  have h1 : u.offset ≠ meta.size := by omega
  have h2 : dat.length < u.offset := by omega
  unfold reportFile
  rw [if_neg hms, hu]
  simp [hv, h1, h2]

/-- Witness for the amended C3. -/
theorem reportFile_offset_beyond_size_panics_witness :
    reportFile ⟨"2.0", 3⟩ [1, 2, 3] ⟨"1.0", some 4096, some ⟨"2.0", 4⟩, none⟩ =
      .panicked :=
  reportFile_offset_beyond_size_panics ⟨"2.0", 3⟩ [1, 2, 3]
    ⟨"1.0", some 4096, some ⟨"2.0", 4⟩, none⟩ ⟨"2.0", 4⟩ rfl (by decide) rfl rfl
    (by decide)

/-- C3 counterexample: image version "2.0" with size 3 (= byte count), status
version "1.0" with pending record (version "2.0", offset 4). The planner's
outcome is a panic, not an error value surfaced to the caller: the claimed
"returns an error value rather than diverging or panicking" is false. -/
theorem reportFile_offset_beyond_size_cex :
    reportFile ⟨"2.0", 3⟩ [9, 8, 7] ⟨"1.0", none, some ⟨"2.0", 4⟩, some 1⟩ =
      .panicked := by decide

/-- C8: within one cloud `report` call — a failed POST or a non-2xx response
errors out immediately, with no retry and no backoff sleep; a 2xx response whose
body does not decode to a `Command` causes exactly one backoff sleep followed by
a retry of the whole POST, so an undecodable body followed by a decodable
command yields exactly that command after exactly one sleep; a 2xx response with
a decodable command returns it at once (src/firmware.rs:112-132). -/
theorem reportCloud_policy (rest : List CloudResp) (body : Option Command)
    (c : Command) (e : String) (n : Nat) :
    reportCloud (.sendErr e :: rest) n = some (.err e, n) ∧
    reportCloud (.resp false body :: rest) n =
      some (.err "Error reporting status to cloud", n) ∧
    reportCloud (.resp true (some c) :: rest) n = some (.ok c, n) ∧
    reportCloud (.resp true none :: .resp true (some c) :: rest) n =
      some (.ok c, n + 1) :=
  ⟨rfl, rfl, rfl, rfl⟩

/-- C9: running the driver against a device that already reports the image
version terminates successfully after exactly one command — a `Sync` — with no
writes, no `start`, and exactly one `synced` call (src/firmware.rs:173-180,
196-210). -/
theorem run_already_synced (v nv : String) (size : Nat) (dat : List Nat)
    (p : Option UpdateStatus) (sw : Except String Unit) (mtu f g : Nat) :
    runLoop ⟨v, size⟩ dat mtu (f + 1) (g + 1) ⟨v, p, sw, nv⟩ =
      some (.done, ⟨[StatusRef.first v (some mtu) none],
        [.sync v none none], [], 0, 1⟩) := by
  simp [runLoop, check, checkLoop, reportFile, StatusRef.first, Command.new_sync]

/-- C1: the first status of a session is built with `update = None` even when
the device holds a pending on-device update — the driver never queries it, the
`FirmwareDevice` trait in src/firmware.rs:214-222 having no `status` operation.
Here the device model carries pending record (version "2.0", offset 4), yet the
head of the list of statuses sent to the source has an empty `update` field. -/
theorem run_first_status_ignores_pending :
    ((runLoop ⟨"2.0", 10⟩ (List.replicate 10 170) 4096 4 2
        ⟨"1.0", some ⟨"2.0", 4⟩, .ok (), "2.0"⟩).map
      fun p => (p.2.statuses.head?).map Status.update) = some (some none) := by
  decide

/-- C2 (amended): when `report` yields a `Swap` and the device's `swap`
operation fails, `check` propagates the error — `device.swap(checksum).await?`
at src/firmware.rs:188 — so the session ends with that error instead of being
marked updated. -/
theorem check_swap_error_propagates (meta : FirmwareFileMeta) (dat : List Nat)
    (dev : DeviceModel) (mtu : Nat) (current : String) (fuel : Nat) (s : Status)
    (v : String) (c : List Nat) (cid : Option Nat) (e : String)
    (hr : reportFile meta dat s = .ok (.swap v c cid))
    (hd : dev.swapResult = .error e) :
    checkLoop meta dat dev mtu current (fuel + 1) s =
      some (.err e, ⟨[s], [.swap v c cid], [], 0, 0⟩) := by
  simp [checkLoop, hr, hd]

/-- Witness for the amended C2. -/
theorem check_swap_error_propagates_witness :
    checkLoop ⟨"2.0", 4⟩ [9, 9, 9, 9]
      ⟨"1.0", none, .error "Serial port error", "2.0"⟩ 4096 "1.0" 1
      (StatusRef.update "1.0" (some 4096) 4 "2.0" none) =
      some (.err "Serial port error",
        ⟨[StatusRef.update "1.0" (some 4096) 4 "2.0" none],
         [.swap "2.0" (List.replicate 32 0) none], [], 0, 0⟩) :=
  check_swap_error_propagates ⟨"2.0", 4⟩ [9, 9, 9, 9]
    ⟨"1.0", none, .error "Serial port error", "2.0"⟩ 4096 "1.0" 0
    (StatusRef.update "1.0" (some 4096) 4 "2.0" none) "2.0"
    (List.replicate 32 0) none "Serial port error" (by decide) rfl

/-- C2 counterexample: a complete session against a device whose post-commit
`swap` raises a transport error. The 4-byte image ("2.0") is written, `Swap` is
issued, the device's swap errors — and the driver surfaces the error and aborts
(`RunResult.failed`) instead of marking the session updated and re-entering the
outer loop as the claim states. -/
theorem run_swap_error_cex :
    runLoop ⟨"2.0", 4⟩ [9, 9, 9, 9] 4096 3 1
      ⟨"1.0", none, .error "Serial port error", "2.0"⟩ =
      some (.failed "Serial port error",
        ⟨[StatusRef.first "1.0" (some 4096) none,
          StatusRef.update "1.0" (some 4096) 4 "2.0" none],
         [.write "2.0" 0 [9, 9, 9, 9] none, .swap "2.0" (List.replicate 32 0) none],
         [(0, [9, 9, 9, 9])], 1, 0⟩) := by decide

/-- C10: the simulator's flash write errors exactly when the write would touch
`offset + len(data) ≥ 128` — so a write whose last byte would land exactly on
the final flash byte is rejected — leaving the flash unchanged; a successful
write replaces `flash[offset .. offset + len(data)]` with `data` and leaves
every byte before `offset` and from `offset + len(data)` on unchanged. -/
theorem simulator_write_spec (flash : List Nat) (offset : Nat) (dat : List Nat)
    (h : flash.length = FLASH_SIZE) :
    (FLASH_SIZE ≤ offset + dat.length →
      DeviceSimulator.write flash offset dat =
        (.error "Writing outside flash limits", flash)) ∧
    (offset + dat.length < FLASH_SIZE →
      ∃ f, DeviceSimulator.write flash offset dat = (.ok (), f) ∧
        f.length = FLASH_SIZE ∧
        (f.drop offset).take dat.length = dat ∧
        f.take offset = flash.take offset ∧
        f.drop (offset + dat.length) = flash.drop (offset + dat.length)) := by
  rw [FLASH_SIZE] at h ⊢
  constructor
  · intro hge
    have hc : flash.length ≤ offset + dat.length := by omega
    unfold DeviceSimulator.write
    rw [if_pos hc]
  · intro hlt
    have hc : ¬ flash.length ≤ offset + dat.length := by omega
    have hto : (flash.take offset).length = offset := by
      rw [List.length_take]; omega
    have htd : ((flash.take offset) ++ dat).length = offset + dat.length := by
      rw [List.length_append, hto]
    refine ⟨flash.take offset ++ dat ++ flash.drop (offset + dat.length),
      ?_, ?_, ?_, ?_, ?_⟩
    · unfold DeviceSimulator.write
      rw [if_neg hc]
    · simp only [List.length_append, List.length_drop, hto]
      omega
    · rw [List.append_assoc, List.drop_left' hto, List.take_left' rfl]
    · rw [List.append_assoc, List.take_left' hto]
    · rw [List.drop_left' htd]

/-- Witness for C10: on a fresh 128-byte flash, a 3-byte write at offset 5. -/
theorem simulator_write_spec_witness :
    ((128 : Nat) ≤ 5 + 3 →
      DeviceSimulator.write (List.replicate 128 48) 5 [1, 2, 3] =
        (.error "Writing outside flash limits", List.replicate 128 48)) ∧
    ((5 + 3 : Nat) < 128 →
      ∃ f, DeviceSimulator.write (List.replicate 128 48) 5 [1, 2, 3] = (.ok (), f) ∧
        f.length = 128 ∧
        (f.drop 5).take 3 = [1, 2, 3] ∧
        f.take 5 = (List.replicate 128 48).take 5 ∧
        f.drop (5 + 3) = (List.replicate 128 48).drop (5 + 3)) :=
  simulator_write_spec (List.replicate 128 48) 5 [1, 2, 3] (by simp [FLASH_SIZE])

/-- C6: with the image size equal to its byte count and any pending offset
within the image, every `Write` the planner returns satisfies
`len(data) ≤ min(mtu_used, size - offset)` and `offset + len(data) ≤ size`,
with `mtu_used = S.mtu` when present and `4096` otherwise, and the payload is
exactly `bytes[offset .. offset + len(data)]` (src/firmware.rs:54-87). -/
theorem reportFile_write_bounds (meta : FirmwareFileMeta) (dat : List Nat)
    (s : Status) (v : String) (off : Nat) (d : List Nat) (cid : Option Nat)
    (hlen : meta.size = dat.length)
    (hup : ∀ u, s.update = some u → u.offset ≤ meta.size)
    (hw : reportFile meta dat s = .ok (.write v off d cid)) :
    d.length ≤ min (s.mtu.getD 4096) (meta.size - off) ∧
      off + d.length ≤ meta.size ∧ d = (dat.drop off).take d.length := by
  unfold reportFile at hw
  by_cases h1 : meta.version = s.version
  · rw [if_pos h1] at hw
    simp [Command.new_sync] at hw
  · rw [if_neg h1] at hw
    cases hs : s.update with
    | some u =>
      rw [hs] at hw
      dsimp only at hw
      by_cases h2 : u.version = meta.version
      · rw [if_pos h2] at hw
        by_cases h3 : u.offset = meta.size
        · rw [if_pos h3] at hw
          simp [Command.new_swap] at hw
        · rw [if_neg h3] at hw
          have hoff : u.offset ≤ meta.size := hup u hs
          have h4 : ¬ dat.length < u.offset := by omega
          rw [if_neg h4] at hw
          simp only [Command.new_write, ReportResult.ok.injEq, Command.write.injEq] at hw
          obtain ⟨hv, ho, hd, hc⟩ := hw
          have hmin : s.mtu.getD 4096 ⊓ (dat.length - u.offset) ≤
              dat.length - u.offset := min_le_right _ _
          have hlend : d.length = s.mtu.getD 4096 ⊓ (dat.length - u.offset) := by
            rw [← hd, List.length_take, List.length_drop]
            omega
          refine ⟨?_, ?_, ?_⟩
          · rw [hlend, ← ho, hlen]
          · rw [hlend, ← ho, hlen]
            omega
          · rw [← ho, hlend, ← hd]
      · rw [if_neg h2] at hw
        simp only [Command.new_write, ReportResult.ok.injEq, Command.write.injEq] at hw
        obtain ⟨hv, ho, hd, hc⟩ := hw
        have hmin : s.mtu.getD 4096 ⊓ dat.length ≤ dat.length := min_le_right _ _
        have hlend : d.length = s.mtu.getD 4096 ⊓ dat.length := by
          rw [← hd, List.length_take]
          omega
        refine ⟨?_, ?_, ?_⟩
        · rw [hlend, ← ho, hlen]
          simp only [Nat.sub_zero, le_refl]
        · rw [hlend, ← ho, hlen]
          omega
        · rw [← ho, hlend, ← hd]
          rw [List.drop_zero]
    | none =>
      rw [hs] at hw
      simp only [Command.new_write, ReportResult.ok.injEq, Command.write.injEq] at hw
      obtain ⟨hv, ho, hd, hc⟩ := hw
      have hmin : s.mtu.getD 4096 ⊓ dat.length ≤ dat.length := min_le_right _ _
      have hlend : d.length = s.mtu.getD 4096 ⊓ dat.length := by
        rw [← hd, List.length_take]
        omega
      refine ⟨?_, ?_, ?_⟩
      · rw [hlend, ← ho, hlen]
        simp only [Nat.sub_zero, le_refl]
      · rw [hlend, ← ho, hlen]
        omega
      · rw [← ho, hlend, ← hd]
        rw [List.drop_zero]

/-- Witness for C6: resume at offset 4 with mtu 4 on a 10-byte image. -/
theorem reportFile_write_bounds_witness :
    (List.replicate 4 3).length ≤ min 4 (10 - 4) ∧
      4 + (List.replicate 4 3).length ≤ 10 ∧
      List.replicate 4 3 = ((List.replicate 10 3).drop 4).take (List.replicate 4 3).length :=
  reportFile_write_bounds ⟨"2.0", 10⟩ (List.replicate 10 3)
    ⟨"1.0", some 4, some ⟨"2.0", 4⟩, none⟩ "2.0" 4 (List.replicate 4 3) none rfl
    (fun u h => by cases h; decide) (by decide)

/-- One-step unfolding of `checkLoop` at positive fuel. -/
theorem checkLoop_succ (meta : FirmwareFileMeta) (dat : List Nat) (dev : DeviceModel)
    (mtu : Nat) (current : String) (fuel : Nat) (s : Status) :
    checkLoop meta dat dev mtu current (fuel + 1) s =
      match reportFile meta dat s with
      | .err e => some (.err e, ⟨[s], [], [], 0, 0⟩)
      | .panicked => some (.panicked, ⟨[s], [], [], 0, 0⟩)
      | .ok cmd =>
        match cmd with
        | .write v off d _ =>
          match checkLoop meta dat dev mtu current fuel
              (StatusRef.update current (some mtu) ((off + d.length) % 2 ^ 32) v none) with
          | none => none
          | some (r, t) =>
            some (r, ⟨s :: t.statuses, cmd :: t.commands, (off, d) :: t.writes,
              (if off = 0 then 1 else 0) + t.starts, t.syncedCalls⟩)
        | .sync _ _ _ => some (.ok true, ⟨[s], [cmd], [], 0, 1⟩)
        | .swap _ _ _ =>
          match dev.swapResult with
          | .ok _ => some (.ok false, ⟨[s], [cmd], [], 0, 0⟩)
          | .error e => some (.err e, ⟨[s], [cmd], [], 0, 0⟩) := rfl

/-- The planner's answer to a fresh session status (no update record) whose
version differs from the image version: a `Write` at offset 0. -/
theorem reportFile_fresh_write (meta : FirmwareFileMeta) (dat : List Nat)
    (mtu : Nat) (current : String) (hne : current ≠ meta.version) :
    reportFile meta dat (StatusRef.first current (some mtu) none) =
      .ok (.write meta.version 0 (dat.take (min mtu dat.length)) none) := by
  have hms : meta.version ≠ current := fun h => hne h.symm
  unfold StatusRef.first reportFile
  dsimp only
  rw [if_neg hms]
  rfl

/-- The planner's answer to a resume status at an offset strictly inside the
image: a `Write` of the next MTU-bounded chunk. -/
theorem reportFile_resume_write (meta : FirmwareFileMeta) (dat : List Nat)
    (mtu : Nat) (current : String) (off : Nat)
    (hne : current ≠ meta.version) (hlen : meta.size = dat.length)
    (hoff : off < dat.length) :
    reportFile meta dat (StatusRef.update current (some mtu) off meta.version none) =
      .ok (.write meta.version off
        ((dat.drop off).take (min mtu (dat.length - off))) none) := by
  have hms : meta.version ≠ current := fun h => hne h.symm
  have h3 : off ≠ meta.size := by omega
  have h4 : ¬ dat.length < off := by omega
  unfold StatusRef.update reportFile
  dsimp only
  rw [if_neg hms, if_pos rfl, if_neg h3, if_neg h4]
  rfl

/-- The planner's answer to a resume status whose offset equals the byte count
(= image size): `Swap`. -/
theorem reportFile_end_swap (meta : FirmwareFileMeta) (dat : List Nat)
    (mtu : Nat) (current : String)
    (hne : current ≠ meta.version) (hlen : meta.size = dat.length) :
    reportFile meta dat
        (StatusRef.update current (some mtu) dat.length meta.version none) =
      .ok (.swap meta.version (List.replicate 32 0) none) := by
  have hms : meta.version ≠ current := fun h => hne h.symm
  unfold StatusRef.update reportFile
  dsimp only
  rw [if_neg hms, if_pos rfl, if_pos hlen.symm]
  rfl

/-- A session step at a fully delivered offset: the driver issues `Swap` and,
the device's swap succeeding, returns `Ok(false)`. -/
theorem checkLoop_swap_step (meta : FirmwareFileMeta) (dat : List Nat)
    (dev : DeviceModel) (mtu k : Nat) (current : String)
    (hne : current ≠ meta.version) (hlen : meta.size = dat.length)
    (hswap : dev.swapResult = .ok ()) :
    checkLoop meta dat dev mtu current (k + 1)
        (StatusRef.update current (some mtu) dat.length meta.version none) =
      some (.ok false,
        ⟨[StatusRef.update current (some mtu) dat.length meta.version none],
         [.swap meta.version (List.replicate 32 0) none], [], 0, 0⟩) := by
  rw [checkLoop_succ, reportFile_end_swap meta dat mtu current hne hlen]
  dsimp only
  rw [hswap]

/-- Resumable delivery: from any offset `off ≤ len(bytes)`, the session loop
emits contiguous `Write`s whose payloads concatenate to `bytes[off..]`, then a
final `Swap`, and returns `Ok(false)`. -/
theorem checkLoop_resume (meta : FirmwareFileMeta) (dat : List Nat)
    (dev : DeviceModel) (mtu : Nat) (current : String)
    (hmtu : 0 < mtu) (hlen : meta.size = dat.length) (hsmall : dat.length < 2 ^ 32)
    (hne : current ≠ meta.version) (hswap : dev.swapResult = .ok ()) :
    ∀ k off, off ≤ dat.length → dat.length - off ≤ k →
    ∃ t, checkLoop meta dat dev mtu current (k + 1)
        (StatusRef.update current (some mtu) off meta.version none) =
        some (.ok false, t) ∧
      contiguousFrom off t.writes = true ∧
      (t.writes.map Prod.snd).flatten = dat.drop off ∧
      t.commands = t.writes.map (fun w => Command.write meta.version w.1 w.2 none) ++
        [Command.swap meta.version (List.replicate 32 0) none] := by
  intro k
  induction k with
  | zero =>
    intro off h1 h2
    have hoff : off = dat.length := by omega
    subst hoff
    refine ⟨_, checkLoop_swap_step meta dat dev mtu 0 current hne hlen hswap, rfl, ?_, rfl⟩
    simp [List.drop_length]
  | succ k ih =>
    intro off h1 h2
    by_cases hend : off = dat.length
    · subst hend
      refine ⟨_, checkLoop_swap_step meta dat dev mtu (k + 1) current hne hlen hswap,
        rfl, ?_, rfl⟩
      simp [List.drop_length]
    · have hlt : off < dat.length := by omega
      have htc1 : 1 ≤ min mtu (dat.length - off) := Nat.le_min.mpr ⟨hmtu, by omega⟩
      have htcle : min mtu (dat.length - off) ≤ dat.length - off := min_le_right _ _
      have hdlen : ((dat.drop off).take (min mtu (dat.length - off))).length =
          min mtu (dat.length - off) := by
        rw [List.length_take, List.length_drop]
        omega
      have hmod : (off + ((dat.drop off).take (min mtu (dat.length - off))).length) % 2 ^ 32 =
          off + min mtu (dat.length - off) := by
        rw [hdlen]
        exact Nat.mod_eq_of_lt (by omega)
      obtain ⟨t, ht, hcont, hflat, hcmds⟩ :=
        ih (off + min mtu (dat.length - off)) (by omega) (by omega)
      refine ⟨⟨StatusRef.update current (some mtu) off meta.version none :: t.statuses,
        Command.write meta.version off
          ((dat.drop off).take (min mtu (dat.length - off))) none :: t.commands,
        (off, (dat.drop off).take (min mtu (dat.length - off))) :: t.writes,
        (if off = 0 then 1 else 0) + t.starts, t.syncedCalls⟩, ?_, ?_, ?_, ?_⟩
      · rw [checkLoop_succ, reportFile_resume_write meta dat mtu current off hne hlen hlt]
        dsimp only
        rw [hmod, ht]
      · simp only [contiguousFrom, hdlen, beq_self_eq_true, Bool.true_and]
        exact hcont
      · simp only [List.map_cons, List.flatten_cons, hflat]
        exact List.drop_take_append_drop dat off (min mtu (dat.length - off))
      · simp only [List.map_cons, List.cons_append, hcmds]

/-- C7: a session that starts with no pending record and a device version
different from the image version delivers the image in contiguous MTU-bounded
chunks beginning at offset 0 — the concatenation of the `Write` payloads equals
the image bytes exactly, in order, with no gap and no overlap — and then issues
`Swap` (src/firmware.rs:37-88, 147-192; the next-status offset after each write
is `offset + data.len()`). -/
theorem check_delivers_image (meta : FirmwareFileMeta) (dat : List Nat)
    (dev : DeviceModel) (mtu : Nat)
    (hmtu : 0 < mtu) (hlen : meta.size = dat.length) (hsmall : dat.length < 2 ^ 32)
    (hne : dev.version ≠ meta.version) (hswap : dev.swapResult = .ok ()) :
    ∃ t, check meta dat dev mtu dev.version (dat.length + 2) = some (.ok false, t) ∧
      contiguousFrom 0 t.writes = true ∧
      (t.writes.map Prod.snd).flatten = dat ∧
      t.commands = t.writes.map (fun w => Command.write meta.version w.1 w.2 none) ++
        [Command.swap meta.version (List.replicate 32 0) none] := by
  have hminle : min mtu dat.length ≤ dat.length := min_le_right _ _
  have hd0len : (dat.take (min mtu dat.length)).length = min mtu dat.length := by
    rw [List.length_take]
    omega
  have hmod : (0 + (dat.take (min mtu dat.length)).length) % 2 ^ 32 =
      min mtu dat.length := by
    rw [hd0len, Nat.zero_add]
    exact Nat.mod_eq_of_lt (by omega)
  obtain ⟨t, ht, hcont, hflat, hcmds⟩ :=
    checkLoop_resume meta dat dev mtu dev.version hmtu hlen hsmall hne hswap
      dat.length (min mtu dat.length) hminle (by omega)
  refine ⟨⟨StatusRef.first dev.version (some mtu) none :: t.statuses,
    Command.write meta.version 0 (dat.take (min mtu dat.length)) none :: t.commands,
    (0, dat.take (min mtu dat.length)) :: t.writes,
    (if (0 : Nat) = 0 then 1 else 0) + t.starts, t.syncedCalls⟩, ?_, ?_, ?_, ?_⟩
  · unfold check
    rw [show dat.length + 2 = (dat.length + 1) + 1 from rfl]
    rw [checkLoop_succ, reportFile_fresh_write meta dat mtu dev.version hne]
    dsimp only
    rw [hmod, ht]
  · simp only [contiguousFrom, hd0len, beq_self_eq_true, Bool.true_and, Nat.zero_add]
    exact hcont
  · simp only [List.map_cons, List.flatten_cons, hflat]
    exact List.take_append_drop (min mtu dat.length) dat
  · simp only [List.map_cons, List.cons_append, hcmds]

/-- Witness for C7: the spec's multi-chunk scenario — MTU 4, a 10-byte image —
where the successive writes are at offsets 0, 4, 8 with a final chunk of
length 2, followed by `Swap`. -/
theorem check_delivers_image_witness :
    (∃ t, check ⟨"2.0", 10⟩ (List.replicate 10 170)
        ⟨"1.0", none, .ok (), "2.0"⟩ 4 "1.0" 12 = some (.ok false, t) ∧
      contiguousFrom 0 t.writes = true ∧
      (t.writes.map Prod.snd).flatten = List.replicate 10 170 ∧
      t.commands = t.writes.map (fun w => Command.write "2.0" w.1 w.2 none) ++
        [Command.swap "2.0" (List.replicate 32 0) none]) ∧
    (check ⟨"2.0", 10⟩ (List.replicate 10 170)
        ⟨"1.0", none, .ok (), "2.0"⟩ 4 "1.0" 12).map
      (fun p => p.2.writes.map (fun w => (w.1, w.2.length))) =
      some [(0, 4), (4, 4), (8, 2)] :=
  ⟨check_delivers_image ⟨"2.0", 10⟩ (List.replicate 10 170)
    ⟨"1.0", none, .ok (), "2.0"⟩ 4 (by decide) (by simp) (by simp) (by decide) rfl,
   by decide⟩
